import Mathlib

/-!
Shallow embedding of the violation-search core of the nycParking
repository: the record normalizer and borough filter of the violations API
route (src/unnamed/part_001), and the time formatter of the
ViolationsDisplay component (src/unnamed/part_004).  JavaScript string and
number primitives are modelled explicitly; a missing number (JavaScript
NaN) is `Option.none`.
-/

namespace NycParking

/-- A JSON field value in a raw violation record: the upstream dataset
delivers strings or numbers. -/
inductive JsValue where
  | str (s : String)
  | num (n : Int)
deriving DecidableEq

/-- JavaScript `v.toString()` for the values above. -/
def JsValue.toStr : JsValue → String
  | .str s => s
  | .num n => toString n

/-- A raw violation record: a partial map from field name to value. -/
abbrev RawRecord := String → Option JsValue

/-- JavaScript `String.prototype.toUpperCase`, on the ASCII strings this
application handles. -/
def jsUpper (s : String) : String := ⟨s.data.map Char.toUpper⟩

/-- Characters stripped by JavaScript `String.prototype.trim`. -/
def jsTrimList (l : List Char) : List Char :=
  ((l.dropWhile Char.isWhitespace).reverse.dropWhile Char.isWhitespace).reverse

/-- JavaScript `String.prototype.trim`. -/
def jsTrim (s : String) : String := ⟨jsTrimList s.data⟩

/-- JavaScript `String.prototype.substring(a, b)`: both indices are clamped
to the string length and swapped when out of order. -/
def jsSubstring (s : String) (a b : Nat) : String :=
  let x := min a s.length
  let y := min b s.length
  ⟨(s.data.drop (min x y)).take (max x y - min x y)⟩

/-- Value of the maximal leading run of decimal digits; `none` when the
first character is not a digit (JavaScript NaN). -/
def decDigitsVal? (l : List Char) : Option Nat :=
  let ds := l.takeWhile Char.isDigit
  if ds.isEmpty then none
  else some (ds.foldl (fun acc c => 10 * acc + (c.toNat - 48)) 0)

/-- Whether a character is a hexadecimal digit. -/
def isHexDigitChar (c : Char) : Bool :=
  c.isDigit || ('a' ≤ c && c ≤ 'f') || ('A' ≤ c && c ≤ 'F')

/-- Numeric value of a hexadecimal digit character. -/
def hexVal (c : Char) : Nat :=
  if c.isDigit then c.toNat - 48
  else if 'a' ≤ c && c ≤ 'f' then c.toNat - 87
  else c.toNat - 55

/-- Value of the maximal leading run of hexadecimal digits; `none` when the
first character is not one (JavaScript NaN). -/
def hexDigitsVal? (l : List Char) : Option Nat :=
  let ds := l.takeWhile isHexDigitChar
  if ds.isEmpty then none
  else some (ds.foldl (fun acc c => 16 * acc + hexVal c) 0)

/-- Magnitude parsed by JavaScript `parseInt` after whitespace and sign
handling: a `0x`/`0X` prefix switches to base 16, otherwise the maximal
decimal-digit prefix is taken. -/
def parseIntCore (l : List Char) : Option Nat :=
  match l with
  | '0' :: c :: rest =>
    if c = 'x' || c = 'X' then hexDigitsVal? rest
    else decDigitsVal? ('0' :: c :: rest)
  | _ => decDigitsVal? l

/-- JavaScript `parseInt(s)` with no radix argument; `none` is NaN. -/
def jsParseInt (s : String) : Option Int :=
  match s.data.dropWhile Char.isWhitespace with
  | '-' :: rest => (parseIntCore rest).map (fun n => -(n : Int))
  | '+' :: rest => (parseIntCore rest).map (fun n => (n : Int))
  | l => (parseIntCore l).map (fun n => (n : Int))

/-- JavaScript `x >= n` where `x` may be NaN: any comparison with NaN is
false. -/
def jsGe (x : Option Int) (n : Int) : Bool :=
  match x with
  | none => false
  | some v => decide (n ≤ v)

/-- JavaScript remainder `x % n` (result takes the dividend's sign), with
NaN propagating. -/
def jsMod (x : Option Int) (n : Int) : Option Int :=
  x.map (fun v => Int.tmod v n)

/-- JavaScript `x || d` on numbers: NaN and `0` are falsy. -/
def jsOrNum (x : Option Int) (d : Int) : Int :=
  match x with
  | none => d
  | some v => if v = 0 then d else v

/-- JavaScript `x || y` on optional strings: `undefined` and `""` are
falsy. -/
def jsOrStr (x y : Option String) : Option String :=
  match x with
  | none => y
  | some s => if s = "" then y else some s

/-- JavaScript `x || d` producing a string: `undefined` and `""` give the
default. -/
def jsStrOr (x : Option String) (d : String) : String :=
  match x with
  | none => d
  | some s => if s = "" then d else s

/-- The string form of a raw record's field, when the field is present:
JavaScript `raw.k?.toString()`. -/
def getStr (raw : RawRecord) (k : String) : Option String :=
  (raw k).map JsValue.toStr

/-- One normalized attribute as computed by the violations route:
JavaScript `raw.k1?.toString() || raw.k2?.toString() || ''`. -/
def aliasGet (raw : RawRecord) (k1 k2 : String) : String :=
  (jsOrStr (getStr raw k1) (getStr raw k2)).getD ""

/-- The fixed-shape violation record of src/types/violations.ts. -/
@[ext]
structure ParkingViolation where
  summons_number : String
  plate_id : String
  registration_state : String
  plate_type : String
  issue_date : String
  violation_code : String
  violation_time : String
  violation_precinct : String
  violation_county : String
  issuing_agency : String
  vehicle_body_type : String
  vehicle_make : String
  street_code1 : String
  street_code2 : String
  street_code3 : String
  vehicle_expiration_date : String
  violation_location : String
  issuer_precinct : String
  issuer_code : String
  issuer_command : String
  issuer_squad : String
  time_first_observed : String
  violation_in_front_of_or_opposite : String
  house_number : String
  street_name : String
  intersecting_street : String
  date_first_observed : String
  law_section : String
  sub_division : String
  violation_legal_code : String
  days_parking_in_effect : String
  from_hours_in_effect : String
  to_hours_in_effect : String
  vehicle_color : String
  unregistered_vehicle : String
  vehicle_year : String
  meter_number : String
  feet_from_curb : String
  violation_post_code : String
  violation_description : String
  no_standing_or_stopping_violation : String
  hydrant_violation : String
  double_parking_violation : String
deriving DecidableEq

/-- The per-record mapping of the violations route (src/unnamed/part_001,
lines 67–112): ten attributes are read from a primary field name with a
fallback to a secondary field name, the remaining attributes are set to
empty defaults. -/
def normalize (raw : RawRecord) : ParkingViolation where
  summons_number := aliasGet raw "summons_number" "summonsNumber"
  plate_id := aliasGet raw "plate_id" "plate"
  registration_state := aliasGet raw "registration_state" "state"
  plate_type := aliasGet raw "plate_type" "license_type"
  issue_date := aliasGet raw "issue_date" "issueDate"
  violation_code := aliasGet raw "violation_code" "violation"
  violation_time := aliasGet raw "violation_time" "violationTime"
  violation_precinct := aliasGet raw "violation_precinct" "precinct"
  violation_county := aliasGet raw "violation_county" "county"
  issuing_agency := aliasGet raw "issuing_agency" "issuingAgency"
  vehicle_body_type := ""
  vehicle_make := ""
  street_code1 := ""
  street_code2 := ""
  street_code3 := ""
  vehicle_expiration_date := ""
  violation_location := ""
  issuer_precinct := ""
  issuer_code := ""
  issuer_command := ""
  issuer_squad := ""
  time_first_observed := ""
  violation_in_front_of_or_opposite := ""
  house_number := ""
  street_name := ""
  intersecting_street := ""
  date_first_observed := ""
  law_section := ""
  sub_division := ""
  violation_legal_code := ""
  days_parking_in_effect := ""
  from_hours_in_effect := ""
  to_hours_in_effect := ""
  vehicle_color := ""
  unregistered_vehicle := ""
  vehicle_year := ""
  meter_number := ""
  feet_from_curb := ""
  violation_post_code := ""
  violation_description := ""
  no_standing_or_stopping_violation := ""
  hydrant_violation := ""
  double_parking_violation := ""

/-- A normalized record reread as a raw record, each attribute exposed
under its primary field name. -/
def toRaw (v : ParkingViolation) : RawRecord := fun k =>
  if k = "summons_number" then some (.str v.summons_number)
  else if k = "plate_id" then some (.str v.plate_id)
  else if k = "registration_state" then some (.str v.registration_state)
  else if k = "plate_type" then some (.str v.plate_type)
  else if k = "issue_date" then some (.str v.issue_date)
  else if k = "violation_code" then some (.str v.violation_code)
  else if k = "violation_time" then some (.str v.violation_time)
  else if k = "violation_precinct" then some (.str v.violation_precinct)
  else if k = "violation_county" then some (.str v.violation_county)
  else if k = "issuing_agency" then some (.str v.issuing_agency)
  else if k = "vehicle_body_type" then some (.str v.vehicle_body_type)
  else if k = "vehicle_make" then some (.str v.vehicle_make)
  else if k = "street_code1" then some (.str v.street_code1)
  else if k = "street_code2" then some (.str v.street_code2)
  else if k = "street_code3" then some (.str v.street_code3)
  else if k = "vehicle_expiration_date" then some (.str v.vehicle_expiration_date)
  else if k = "violation_location" then some (.str v.violation_location)
  else if k = "issuer_precinct" then some (.str v.issuer_precinct)
  else if k = "issuer_code" then some (.str v.issuer_code)
  else if k = "issuer_command" then some (.str v.issuer_command)
  else if k = "issuer_squad" then some (.str v.issuer_squad)
  else if k = "time_first_observed" then some (.str v.time_first_observed)
  else if k = "violation_in_front_of_or_opposite" then some (.str v.violation_in_front_of_or_opposite)
  else if k = "house_number" then some (.str v.house_number)
  else if k = "street_name" then some (.str v.street_name)
  else if k = "intersecting_street" then some (.str v.intersecting_street)
  else if k = "date_first_observed" then some (.str v.date_first_observed)
  else if k = "law_section" then some (.str v.law_section)
  else if k = "sub_division" then some (.str v.sub_division)
  else if k = "violation_legal_code" then some (.str v.violation_legal_code)
  else if k = "days_parking_in_effect" then some (.str v.days_parking_in_effect)
  else if k = "from_hours_in_effect" then some (.str v.from_hours_in_effect)
  else if k = "to_hours_in_effect" then some (.str v.to_hours_in_effect)
  else if k = "vehicle_color" then some (.str v.vehicle_color)
  else if k = "unregistered_vehicle" then some (.str v.unregistered_vehicle)
  else if k = "vehicle_year" then some (.str v.vehicle_year)
  else if k = "meter_number" then some (.str v.meter_number)
  else if k = "feet_from_curb" then some (.str v.feet_from_curb)
  else if k = "violation_post_code" then some (.str v.violation_post_code)
  else if k = "violation_description" then some (.str v.violation_description)
  else if k = "no_standing_or_stopping_violation" then some (.str v.no_standing_or_stopping_violation)
  else if k = "hydrant_violation" then some (.str v.hydrant_violation)
  else if k = "double_parking_violation" then some (.str v.double_parking_violation)
  else none

/-- The borough-to-county-codes object literal of the violations route
(src/unnamed/part_001, lines 121–127). -/
def boroughTable : List (String × List String) :=
  [("MANHATTAN", ["NY", "MN"]),
   ("BROOKLYN", ["K", "BK"]),
   ("QUEENS", ["Q", "QN", "QUEENS"]),
   ("BRONX", ["BX"]),
   ("STATEN ISLAND", ["R", "ST"])]

/-- JavaScript property access `boroughToCounty[searchBorough]`; `none` is
`undefined`. -/
def boroughToCounty (b : String) : Option (List String) :=
  (boroughTable.find? (fun p => p.1 == b)).map Prod.snd

/-- The filter callback of the violations route: JavaScript
`county && countyNames && countyNames.includes(county)` where `county` is
the record's uppercased county attribute and `countyNames` is the borough's
table entry. -/
def keepViolation (searchBorough : String) (v : ParkingViolation) : Bool :=
  let county := jsUpper v.violation_county
  county != "" &&
    match boroughToCounty searchBorough with
    | none => false
    | some countyNames => countyNames.contains county

/-- The borough-filtering step of the violations route (src/unnamed/
part_001, lines 115–134): the filter runs only when the borough parameter
is present, has a non-blank trimmed form, and is not the sentinel
`"ALL BOROUGHS"` after uppercasing. -/
def filterByBorough (records : List ParkingViolation) (borough : Option String) :
    List ParkingViolation :=
  match borough with
  | none => records
  | some b =>
    if b ≠ "" ∧ jsTrim b ≠ "" ∧ jsUpper b ≠ "ALL BOROUGHS"
    then records.filter (fun v => keepViolation (jsUpper b) v)
    else records

/-- The success-response payload of the violations route
(src/types/violations.ts). -/
structure ViolationSearchResult where
  violations : List ParkingViolation
  totalCount : Nat
  licensePlate : String
deriving DecidableEq

/-- The success path of the violations route after the upstream fetch
(src/unnamed/part_001, lines 67–142): normalize each raw record, filter by
borough, then assemble the response with `totalCount: violations.length`
and `licensePlate: licensePlate ? licensePlate.toUpperCase() :
(ticketNumber || '')`. -/
def buildResult (rawViolations : List RawRecord)
    (borough licensePlate ticketNumber : Option String) : ViolationSearchResult :=
  let violations := filterByBorough (rawViolations.map normalize) borough
  { violations := violations
    totalCount := violations.length
    licensePlate :=
      match licensePlate with
      | some lp => if lp ≠ "" then jsUpper lp else jsStrOr ticketNumber ""
      | none => jsStrOr ticketNumber "" }

/-- The function `formatTime` of the ViolationsDisplay component
(src/unnamed/part_004, lines 75–85): an input that is falsy or shorter than
4 characters is returned unchanged; otherwise `substring(0, 2)` is parsed
as the hour, `substring(2, 4)` is taken verbatim as the minutes, and the
12-hour rendering `"{displayHours}:{minutes} {ampm}"` is produced. -/
def formatTime (timeStr : String) : String :=
  if timeStr = "" ∨ timeStr.length < 4 then timeStr
  else
    let hours := jsParseInt (jsSubstring timeStr 0 2)
    let minutes := jsSubstring timeStr 2 4
    let ampm := if jsGe hours 12 then "PM" else "AM"
    let displayHours := jsOrNum (jsMod hours 12) 12
    toString displayHours ++ ":" ++ minutes ++ " " ++ ampm

/-- The ASCII character of a decimal digit. -/
def digitChar (d : Fin 10) : Char := Char.ofNat (48 + d.val)

/-- The 4-character all-digit token built from four digits. -/
def digitTok (a b c d : Fin 10) : String :=
  ⟨[digitChar a, digitChar b, digitChar c, digitChar d]⟩

/-- The normalization of a raw record with no fields: every attribute is
the empty string. -/
def blankViolation : ParkingViolation := normalize (fun _ => none)

/-- A normalized record whose only non-empty attribute is the county
code. -/
def countyViolation (c : String) : ParkingViolation :=
  { blankViolation with violation_county := c }

/-- A raw record carrying only a `vehicle_body_type` field. -/
def rawBody : RawRecord := fun k =>
  if k = "vehicle_body_type" then some (.str "SUV") else none

/-- A raw record carrying only a numeric `plate` field. -/
def rawPlateNum : RawRecord := fun k =>
  if k = "plate" then some (.num 5) else none

/-- A raw record carrying only a `county` field. -/
def rawCounty (c : String) : RawRecord := fun k =>
  if k = "county" then some (.str c) else none


theorem jsParseInt_two_digits (a b : Fin 10) :
    jsParseInt ⟨[digitChar a, digitChar b]⟩ = some ((10 * a.val + b.val : Nat) : Int) := by
  fin_cases a <;> fin_cases b <;> rfl

theorem digitTok_sub02 (a b c d : Fin 10) :
    jsSubstring (digitTok a b c d) 0 2 = ⟨[digitChar a, digitChar b]⟩ := rfl

theorem digitTok_sub24 (a b c d : Fin 10) :
    jsSubstring (digitTok a b c d) 2 4 = ⟨[digitChar c, digitChar d]⟩ := rfl

theorem toString_int_ofNat (m : Nat) : toString ((m : Int)) = toString m := rfl

theorem formatTime_digitTok (a b c d : Fin 10) :
    formatTime (digitTok a b c d) =
      toString (if (10 * a.val + b.val) % 12 = 0 then 12 else (10 * a.val + b.val) % 12)
        ++ ":" ++ (⟨[digitChar c, digitChar d]⟩ : String) ++ " "
        ++ (if 12 ≤ 10 * a.val + b.val then "PM" else "AM") := by
  have hlen : (digitTok a b c d).length = 4 := rfl
  have hne : ¬(digitTok a b c d = "" ∨ (digitTok a b c d).length < 4) := by
    rintro (h | h)
    · exact absurd (congrArg String.data h) (by simp [digitTok])
    · omega
  rw [formatTime, if_neg hne, digitTok_sub02, digitTok_sub24, jsParseInt_two_digits]
  set n := 10 * a.val + b.val with hn
  have hge : jsGe (some ((n : Nat) : Int)) 12 = decide (12 ≤ n) := by
    have h : ((12 : Int) ≤ (n : Int)) ↔ 12 ≤ n := by exact_mod_cast Iff.rfl
    simp only [jsGe, decide_eq_decide]
    exact h
  have hmod : jsMod (some ((n : Nat) : Int)) 12 = some (((n % 12 : Nat) : Int)) := rfl
  have hziff : (((n % 12 : Nat) : Int) = 0) ↔ n % 12 = 0 := by exact_mod_cast Iff.rfl
  have hq : (if ((n % 12 : Nat) : Int) = 0 then (12 : Int) else ((n % 12 : Nat) : Int))
      = (((if n % 12 = 0 then 12 else n % 12 : Nat) : Int)) := by
    by_cases hz : n % 12 = 0
    · rw [if_pos (hziff.mpr hz), if_pos hz]; norm_num
    · rw [if_neg (fun hc => hz (hziff.mp hc)), if_neg hz]
  simp only [hge, hmod, jsOrNum, hq, toString_int_ofNat, decide_eq_true_eq]

/-- C3: for every 4-character all-digit token, `formatTime` parses the
first two characters as the hour, takes the next two verbatim as the
minute digits, displays `hour mod 12` with 12 substituted for 0 and no
leading zero, and appends AM when the 24-hour value is below 12 and PM
otherwise; concretely `formatTime "1430" = "2:30 PM"`,
`formatTime "0000" = "12:00 AM"`, `formatTime "1200" = "12:00 PM"`, and
the empty input is returned unchanged. -/
theorem formatTime_four_digit_tokens :
    (∀ a b c d : Fin 10,
      formatTime (digitTok a b c d) =
        toString (if (10 * a.val + b.val) % 12 = 0 then 12 else (10 * a.val + b.val) % 12)
          ++ ":" ++ (⟨[digitChar c, digitChar d]⟩ : String) ++ " "
          ++ (if 12 ≤ 10 * a.val + b.val then "PM" else "AM"))
    ∧ formatTime "1430" = "2:30 PM"
    ∧ formatTime "0000" = "12:00 AM"
    ∧ formatTime "1200" = "12:00 PM"
    ∧ formatTime "" = "" :=
  ⟨formatTime_digitTok, by decide, by decide, by decide, rfl⟩

/-- C1: evaluation of `formatTime` at the input `"730"`: the code returns
the token unchanged because the guard `timeStr.length < 4` fires before
any cleaning or padding, while the repository's own documentation
(TimeFormattingBug.md) and the specification require `"7:30 AM"`. -/
theorem formatTime_730_eval : formatTime "730" = "730" := by decide

/-- C2: evaluation of `formatTime` at the input `"12:30"`: the code never
strips non-digit characters, so the minute substring comes out as `":3"`,
while the documented cleaning step would produce `"12:30 PM"`. -/
theorem formatTime_nondigits_eval : formatTime "12:30" = "12::3 PM" := by decide

theorem mem_of_boroughToCounty {b : String} {codes : List String}
    (h : boroughToCounty b = some codes) : (b, codes) ∈ boroughTable := by
  unfold boroughToCounty at h
  cases hf : boroughTable.find? (fun p => p.1 == b) with
  | none => rw [hf] at h; simp at h
  | some p =>
    rw [hf] at h
    simp only [Option.map_some'] at h
    have hp := List.mem_of_find?_eq_some hf
    have hb : p.1 = b := by simpa using List.find?_some hf
    obtain ⟨p1, p2⟩ := p
    simp only at hb h
    injection h with h2
    rw [← hb, ← h2]
    exact hp

theorem empty_not_mem_codes {b : String} {codes : List String}
    (h : boroughToCounty b = some codes) : "" ∉ codes := by
  have hmem := mem_of_boroughToCounty h
  simp only [boroughTable, List.mem_cons, List.not_mem_nil, or_false] at hmem
  rcases hmem with h | h | h | h | h <;>
    · rw [Prod.mk.injEq] at h
      rw [h.2]
      decide

theorem ws_toUpper {c : Char} (h : c.isWhitespace = true) : c.toUpper = c := by
  simp only [Char.isWhitespace, Bool.or_eq_true, decide_eq_true_eq] at h
  rcases h with ((h | h) | h) | h <;> subst h <;> decide

theorem all_ws_of_jsTrim_empty {b : String} (h : jsTrim b = "") :
    ∀ c ∈ b.data, c.isWhitespace = true := by
  have hdata : jsTrimList b.data = [] := congrArg String.data h
  unfold jsTrimList at hdata
  rw [List.reverse_eq_nil_iff, List.dropWhile_eq_nil_iff] at hdata
  intro c hc
  rw [← List.takeWhile_append_dropWhile (p := Char.isWhitespace) (l := b.data)] at hc
  rcases List.mem_append.mp hc with h1 | h2
  · exact List.mem_takeWhile_imp h1
  · exact hdata c (List.mem_reverse.mpr h2)

theorem guard_of_recognized {b : String} {codes : List String}
    (h : boroughToCounty (jsUpper b) = some codes) :
    b ≠ "" ∧ jsTrim b ≠ "" ∧ jsUpper b ≠ "ALL BOROUGHS" := by
  have hmem := mem_of_boroughToCounty h
  refine ⟨?_, ?_, ?_⟩
  · intro hb
    subst hb
    simp [boroughTable, jsUpper] at hmem
  · intro htr
    have hws := all_ws_of_jsTrim_empty htr
    have hid : jsUpper b = b := by
      unfold jsUpper
      conv_rhs => rw [show b = (⟨b.data⟩ : String) from rfl]
      congr 1
      calc b.data.map Char.toUpper = b.data.map id :=
            List.map_congr_left (fun c hc => ws_toUpper (hws c hc))
        _ = b.data := List.map_id b.data
    rw [hid] at hmem
    simp only [boroughTable, List.mem_cons, List.not_mem_nil, or_false] at hmem
    rcases hmem with hc | hc | hc | hc | hc
    · rw [Prod.mk.injEq] at hc; rw [hc.1] at hws
      exact absurd (hws 'M' (by decide)) (by decide)
    · rw [Prod.mk.injEq] at hc; rw [hc.1] at hws
      exact absurd (hws 'B' (by decide)) (by decide)
    · rw [Prod.mk.injEq] at hc; rw [hc.1] at hws
      exact absurd (hws 'Q' (by decide)) (by decide)
    · rw [Prod.mk.injEq] at hc; rw [hc.1] at hws
      exact absurd (hws 'B' (by decide)) (by decide)
    · rw [Prod.mk.injEq] at hc; rw [hc.1] at hws
      exact absurd (hws 'S' (by decide)) (by decide)
  · intro hup
    rw [hup] at h
    have hnone : boroughToCounty "ALL BOROUGHS" = none := by decide
    rw [hnone] at h
    exact Option.noConfusion h

theorem keepViolation_eq_mem {b : String} {codes : List String}
    (h : boroughToCounty b = some codes) (v : ParkingViolation) :
    keepViolation b v = decide (jsUpper v.violation_county ∈ codes) := by
  have hem := empty_not_mem_codes h
  simp only [keepViolation, h]
  by_cases hcv : jsUpper v.violation_county = ""
  · rw [hcv]
    simp [hem]
  · simp [hcv]

/-- C5: for every record sequence and every borough name recognized after
uppercasing, the borough filter keeps exactly the records whose uppercased
county code is a member of that borough's code set, preserves relative
order without duplication (the output is a sublist of the input), and
never keeps a record whose county code is the empty string. -/
theorem filterByBorough_recognized (records : List ParkingViolation) (b : String)
    (codes : List String) (h : boroughToCounty (jsUpper b) = some codes) :
    filterByBorough records (some b)
        = records.filter (fun v => decide (jsUpper v.violation_county ∈ codes))
      ∧ (filterByBorough records (some b)).Sublist records
      ∧ ∀ v : ParkingViolation, v.violation_county = "" →
          v ∉ filterByBorough records (some b) := by
  have hguard := guard_of_recognized h
  have hunf : filterByBorough records (some b)
      = records.filter (fun v => keepViolation (jsUpper b) v) := by
    simp only [filterByBorough]
    rw [if_pos hguard]
  refine ⟨?_, ?_, ?_⟩
  · rw [hunf]
    exact List.filter_congr (fun v _ => keepViolation_eq_mem h v)
  · rw [hunf]; exact List.filter_sublist records
  · intro v hcv hvmem
    rw [hunf] at hvmem
    have hkeep := (List.mem_filter.mp hvmem).2
    rw [keepViolation_eq_mem h v, hcv] at hkeep
    have h2 : jsUpper "" = "" := rfl
    rw [h2] at hkeep
    exact absurd (of_decide_eq_true hkeep) (empty_not_mem_codes h)

/-- Witness for C5 at the borough `"Queens"` and a two-record input with
county codes `"qn"` and `"BX"`. -/
theorem filterByBorough_recognized_witness :
    boroughToCounty (jsUpper "Queens") = some ["Q", "QN", "QUEENS"]
    ∧ (filterByBorough [countyViolation "qn", countyViolation "BX"] (some "Queens")
          = [countyViolation "qn", countyViolation "BX"].filter
              (fun v => decide (jsUpper v.violation_county ∈ ["Q", "QN", "QUEENS"]))
        ∧ (filterByBorough [countyViolation "qn", countyViolation "BX"]
            (some "Queens")).Sublist [countyViolation "qn", countyViolation "BX"]
        ∧ ∀ v : ParkingViolation, v.violation_county = "" →
            v ∉ filterByBorough [countyViolation "qn", countyViolation "BX"] (some "Queens")) :=
  ⟨by decide,
   filterByBorough_recognized [countyViolation "qn", countyViolation "BX"] "Queens"
     ["Q", "QN", "QUEENS"] (by decide)⟩

/-- C6: the borough filter is the identity when the borough parameter is
absent, the empty string, or equal to `"ALL BOROUGHS"` up to letter
case. -/
theorem filterByBorough_identity_cases (records : List ParkingViolation) :
    filterByBorough records none = records
    ∧ filterByBorough records (some "") = records
    ∧ ∀ b : String, jsUpper b = "ALL BOROUGHS" → filterByBorough records (some b) = records := by
  refine ⟨rfl, ?_, ?_⟩
  · simp only [filterByBorough]
    rw [if_neg (fun hcon => hcon.1 rfl)]
  · intro b hb
    simp only [filterByBorough]
    rw [if_neg (fun hcon => hcon.2.2 hb)]

/-- Witness for C6 at the borough `"all Boroughs"` and a one-record
input. -/
theorem filterByBorough_identity_cases_witness :
    jsUpper "all Boroughs" = "ALL BOROUGHS"
    ∧ filterByBorough [countyViolation "NY"] (some "all Boroughs") = [countyViolation "NY"] :=
  ⟨by decide,
   (filterByBorough_identity_cases [countyViolation "NY"]).2.2 "all Boroughs" (by decide)⟩

/-- Counterexample to C7 as stated: the borough string `"   "` is present,
non-empty, not the sentinel, and unrecognized, yet the filter returns the
input unchanged rather than an empty sequence, because the route only
filters when the trimmed borough is non-blank. -/
theorem filterByBorough_whitespace_identity :
    ("   " : String) ≠ "" ∧ jsUpper "   " ≠ "ALL BOROUGHS"
    ∧ boroughToCounty (jsUpper "   ") = none
    ∧ filterByBorough [countyViolation "NY"] (some "   ") = [countyViolation "NY"]
    ∧ [countyViolation "NY"] ≠ ([] : List ParkingViolation) := by
  refine ⟨by decide, by decide, by decide, ?_, by decide⟩
  simp only [filterByBorough]
  rw [if_neg (fun hcon => hcon.2.1 (by decide))]

/-- C7 (amended): for every borough string whose trimmed form is
non-empty, that is not the `"ALL BOROUGHS"` sentinel, and whose uppercased
form is not a recognized borough name, the filter returns the empty
sequence regardless of the input. -/
theorem filterByBorough_unrecognized_empty (records : List ParkingViolation) (b : String)
    (htrim : jsTrim b ≠ "") (hs : jsUpper b ≠ "ALL BOROUGHS")
    (hrec : boroughToCounty (jsUpper b) = none) :
    filterByBorough records (some b) = [] := by
  have hb : b ≠ "" := fun hbe => htrim (by rw [hbe]; rfl)
  simp only [filterByBorough]
  rw [if_pos ⟨hb, htrim, hs⟩]
  rw [List.filter_eq_nil_iff]
  intro v _
  simp only [keepViolation, hrec]
  simp

/-- Witness for C7 at the unrecognized borough `"ATLANTIS"` and a
one-record input. -/
theorem filterByBorough_unrecognized_empty_witness :
    jsTrim "ATLANTIS" ≠ "" ∧ jsUpper "ATLANTIS" ≠ "ALL BOROUGHS"
    ∧ boroughToCounty (jsUpper "ATLANTIS") = none
    ∧ filterByBorough [countyViolation "NY"] (some "ATLANTIS") = [] :=
  ⟨by decide, by decide, by decide,
   filterByBorough_unrecognized_empty [countyViolation "NY"] "ATLANTIS"
     (by decide) (by decide) (by decide)⟩

/-- C8: in the borough-to-county-codes table, no county code appears in
the code sets of two different boroughs. -/
theorem boroughTable_codes_disjoint :
    ∀ p ∈ boroughTable, ∀ q ∈ boroughTable, p.1 ≠ q.1 → ∀ c ∈ p.2, c ∉ q.2 := by
  decide

/-- Witness for C8 at the Manhattan and Brooklyn entries and the county
code `"NY"`. -/
theorem boroughTable_codes_disjoint_witness :
    ("NY" : String) ∈ (["NY", "MN"] : List String) ∧ "NY" ∉ (["K", "BK"] : List String) :=
  ⟨by decide,
   boroughTable_codes_disjoint ("MANHATTAN", ["NY", "MN"]) (by decide)
     ("BROOKLYN", ["K", "BK"]) (by decide) (by decide) "NY" (by decide)⟩

/-- C4 (amended): the ten dataset-backed attributes of a normalized record
equal the alias lookup `raw.k1?.toString() || raw.k2?.toString() || ''` on
their primary and secondary field names, the remaining thirty-three
attributes are always the empty string, and the alias lookup yields the
empty string when both fields are absent, the primary value's string form
when the primary is present and non-empty, and the secondary value's
string form when the primary is absent and the secondary is non-empty;
numbers are converted via their natural string representation. -/
theorem normalize_shape (raw : RawRecord) :
    (∀ k1 k2 : String,
        (raw k1 = none → raw k2 = none → aliasGet raw k1 k2 = "")
      ∧ (∀ v : JsValue, raw k1 = some v → JsValue.toStr v ≠ "" →
          aliasGet raw k1 k2 = JsValue.toStr v)
      ∧ (∀ v : JsValue, raw k1 = none → raw k2 = some v → JsValue.toStr v ≠ "" →
          aliasGet raw k1 k2 = JsValue.toStr v))
    ∧ JsValue.toStr (JsValue.num 5) = "5"
    ∧ (normalize raw).summons_number = aliasGet raw "summons_number" "summonsNumber"
    ∧ (normalize raw).plate_id = aliasGet raw "plate_id" "plate"
    ∧ (normalize raw).registration_state = aliasGet raw "registration_state" "state"
    ∧ (normalize raw).plate_type = aliasGet raw "plate_type" "license_type"
    ∧ (normalize raw).issue_date = aliasGet raw "issue_date" "issueDate"
    ∧ (normalize raw).violation_code = aliasGet raw "violation_code" "violation"
    ∧ (normalize raw).violation_time = aliasGet raw "violation_time" "violationTime"
    ∧ (normalize raw).violation_precinct = aliasGet raw "violation_precinct" "precinct"
    ∧ (normalize raw).violation_county = aliasGet raw "violation_county" "county"
    ∧ (normalize raw).issuing_agency = aliasGet raw "issuing_agency" "issuingAgency"
    ∧ (normalize raw).vehicle_body_type = ""
    ∧ (normalize raw).vehicle_make = ""
    ∧ (normalize raw).street_code1 = ""
    ∧ (normalize raw).street_code2 = ""
    ∧ (normalize raw).street_code3 = ""
    ∧ (normalize raw).vehicle_expiration_date = ""
    ∧ (normalize raw).violation_location = ""
    ∧ (normalize raw).issuer_precinct = ""
    ∧ (normalize raw).issuer_code = ""
    ∧ (normalize raw).issuer_command = ""
    ∧ (normalize raw).issuer_squad = ""
    ∧ (normalize raw).time_first_observed = ""
    ∧ (normalize raw).violation_in_front_of_or_opposite = ""
    ∧ (normalize raw).house_number = ""
    ∧ (normalize raw).street_name = ""
    ∧ (normalize raw).intersecting_street = ""
    ∧ (normalize raw).date_first_observed = ""
    ∧ (normalize raw).law_section = ""
    ∧ (normalize raw).sub_division = ""
    ∧ (normalize raw).violation_legal_code = ""
    ∧ (normalize raw).days_parking_in_effect = ""
    ∧ (normalize raw).from_hours_in_effect = ""
    ∧ (normalize raw).to_hours_in_effect = ""
    ∧ (normalize raw).vehicle_color = ""
    ∧ (normalize raw).unregistered_vehicle = ""
    ∧ (normalize raw).vehicle_year = ""
    ∧ (normalize raw).meter_number = ""
    ∧ (normalize raw).feet_from_curb = ""
    ∧ (normalize raw).violation_post_code = ""
    ∧ (normalize raw).violation_description = ""
    ∧ (normalize raw).no_standing_or_stopping_violation = ""
    ∧ (normalize raw).hydrant_violation = ""
    ∧ (normalize raw).double_parking_violation = "" := by
  refine ⟨?_, rfl, rfl, rfl, rfl, rfl, rfl, rfl, rfl, rfl, rfl, rfl, rfl, rfl, rfl, rfl, rfl, rfl, rfl, rfl, rfl, rfl, rfl, rfl, rfl, rfl, rfl, rfl, rfl, rfl, rfl, rfl, rfl, rfl, rfl, rfl, rfl, rfl, rfl, rfl, rfl, rfl, rfl, rfl, rfl⟩
  intro k1 k2
  refine ⟨?_, ?_, ?_⟩
  · intro h1 h2
    simp [aliasGet, getStr, jsOrStr, h1, h2]
  · intro v h1 hne
    simp [aliasGet, getStr, jsOrStr, h1, hne]
  · intro v h1 h2 hne
    simp [aliasGet, getStr, jsOrStr, h1, h2, hne]

/-- Witness for C4 at a raw record whose only field is the numeric
secondary alias `plate = 5`. -/
theorem normalize_shape_witness :
    rawPlateNum "plate_id" = none ∧ rawPlateNum "plate" = some (.num 5)
    ∧ aliasGet rawPlateNum "plate_id" "plate" = JsValue.toStr (.num 5)
    ∧ (normalize rawPlateNum).plate_id = "5" :=
  ⟨rfl, by decide,
   ((normalize_shape rawPlateNum).1 "plate_id" "plate").2.2 (.num 5) rfl (by decide) (by decide),
   by decide⟩

/-- Counterexample to C4 as stated: a raw record that supplies
`vehicle_body_type = "SUV"` under that attribute's own name still
normalizes to the empty string, because the route hard-codes empty
defaults for the thirty-three attributes outside the upstream dataset
instead of looking them up by alias. -/
theorem normalize_drops_nonalias_field :
    rawBody "vehicle_body_type" = some (.str "SUV")
    ∧ (normalize rawBody).vehicle_body_type = ""
    ∧ JsValue.toStr (.str "SUV") ≠ "" := ⟨by decide, by decide, by decide⟩

/-- C9: renormalizing a normalized record, reread as raw input under the
primary field names, returns the record unchanged. -/
theorem normalize_idempotent (raw : RawRecord) :
    normalize (toRaw (normalize raw)) = normalize raw := by
  have h : ∀ a : String, (jsOrStr (some a) none).getD "" = a := by
    intro a
    by_cases ha : a = "" <;> simp [jsOrStr, ha]
  apply ParkingViolation.ext <;> first | exact h _ | rfl

/-- C10: in every successful response of the violations route, the
`totalCount` field equals the length of the returned `violations` array,
which is the borough-filtered normalized sequence; in the concrete
three-record Brooklyn scenario the count is 1, not the pre-filter size
3. -/
theorem buildResult_totalCount :
    (∀ (rawViolations : List RawRecord) (borough licensePlate ticketNumber : Option String),
        (buildResult rawViolations borough licensePlate ticketNumber).totalCount
          = (buildResult rawViolations borough licensePlate ticketNumber).violations.length
      ∧ (buildResult rawViolations borough licensePlate ticketNumber).violations
          = filterByBorough (rawViolations.map normalize) borough)
    ∧ (buildResult [rawCounty "K", rawCounty "NY", rawCounty "Q"]
        (some "Brooklyn") none none).totalCount = 1
    ∧ ([rawCounty "K", rawCounty "NY", rawCounty "Q"] : List RawRecord).length = 3 :=
  ⟨fun _ _ _ _ => ⟨rfl, rfl⟩, by decide, rfl⟩

end NycParking

